import Mathlib

/-!
Shallow embedding of the cosmic-scene renderer of the portfolio repository
(`src/components/cosmic-ascii-scene.tsx` and the host page `src/app/page.tsx`).

Modelling conventions:
* JavaScript numbers are modelled as exact rationals (`ℚ`); decimal literals
  of the source become the same literals in `ℚ`.  `Math.PI` is modelled by the
  exact rational value of the IEEE-754 double `Math.PI`.
* 32-bit signed truncation (`| 0`, `<<`, `>>`, `&`) is modelled explicitly with
  `toInt32` / `Int.fdiv` / `Nat.land` on mathematical integers.
* `Math.random()` draws are passed in as explicit oracle arguments in `[0,1)`,
  and `Math.sin` is passed in as an explicit function argument, so that every
  definition stays executable.
-/

/-- The eight base motion styles (`BaseStyle` union type of the source). -/
inductive BaseStyle
  | drift | swirl | pulse | twinkle | wave | orbit | flare | ripple
deriving DecidableEq, Repr

/-- `BASE_STYLES` constant: all eight base styles in source order. -/
def BASE_STYLES : List BaseStyle :=
  [.drift, .swirl, .pulse, .twinkle, .wave, .orbit, .flare, .ripple]

/-- `TYPE_STYLE_BIAS` record: the entity-type → preferred-base-styles table. -/
def TYPE_STYLE_BIAS : String → Option (List BaseStyle)
  | "blackhole" => some [.swirl, .ripple, .flare]
  | "sun" => some [.pulse, .flare, .wave]
  | "star" => some [.twinkle, .pulse, .wave]
  | "pulsar" => some [.pulse, .flare]
  | "nebula" => some [.wave, .ripple, .drift]
  | "galaxy" => some [.swirl, .drift, .ripple]
  | "cluster" => some [.twinkle, .pulse, .ripple]
  | "quasar" => some [.flare, .swirl, .pulse]
  | "supernova" => some [.flare, .wave, .pulse]
  | "exoplanet" => some [.orbit, .drift, .wave]
  | "rings" => some [.orbit, .ripple, .drift]
  | "comet" => some [.drift, .ripple, .flare]
  | "meteoroid" => some [.drift, .flare, .wave]
  | "asteroid" => some [.drift, .orbit, .ripple]
  | "moon" => some [.orbit, .twinkle, .wave]
  | "cloud" => some [.ripple, .wave, .drift]
  | "structure" => some [.swirl, .ripple, .drift]
  | "stream" => some [.wave, .drift, .ripple]
  | "rogueplanet" => some [.orbit, .drift, .pulse]
  | "phenomena" => some [.flare, .wave, .pulse]
  | "wave" => some [.wave, .ripple, .drift]
  | "magnetar" => some [.pulse, .flare, .swirl]
  | "burst" => some [.flare, .pulse, .wave]
  | "core" => some [.swirl, .pulse, .flare]
  | "background" => some [.ripple, .drift, .wave]
  | "halo" => some [.ripple, .swirl, .orbit]
  | "browndwarf" => some [.pulse, .flare, .twinkle]
  | "void" => some [.drift, .ripple, .swirl]
  | "boundary" => some [.wave, .ripple, .flare]
  | "belt" => some [.orbit, .drift, .ripple]
  | "dwarfplanet" => some [.orbit, .pulse, .drift]
  | "supercluster" => some [.swirl, .twinkle, .ripple]
  | "frb" => some [.flare, .pulse, .twinkle]
  | _ => none

/-- JavaScript `| 0`: truncation of an integer to a signed 32-bit value. -/
def toInt32 (n : ℤ) : ℤ := (n + 2 ^ 31) % 2 ^ 32 - 2 ^ 31

/-- One step of `hashString`'s loop:
`hash = (hash << 5) - hash + value.charCodeAt(i); hash |= 0`.
`hash << 5` itself truncates to 32 bits before the subtraction. -/
def hashStep (hash : ℤ) (code : ℕ) : ℤ :=
  toInt32 (toInt32 (hash * 32) - hash + code)

/-- `hashString`: polynomial rolling hash over the string's character codes,
starting from 0, truncated to a signed 32-bit integer at every step. -/
def hashString (value : String) : ℤ :=
  value.data.foldl (fun hash c => hashStep hash c.toNat) 0

/-- The exact rational value of the IEEE-754 double `Math.PI`. -/
def MathPI : ℚ := 884279719003555 / 281474976710656

/-- JavaScript `(hash >> shift) & mask` for `hash` a nonnegative number and a
small nonnegative `mask`: `hash` is truncated to int32, arithmetically shifted
(floor division by `2 ^ shift`), reduced to its 32-bit two's-complement bit
pattern and masked. -/
def jsShrAnd (hash : ℕ) (shift mask : ℕ) : ℕ :=
  (((toInt32 hash).fdiv (2 ^ shift)).emod (2 ^ 32)).toNat &&& mask

/-- The local helper `take` of `getStyleVariant`:
`((hash >> shift) & mask) / mask` (default mask `0xff`). -/
def takeBits (hash : ℕ) (shift : ℕ) (mask : ℕ := 0xff) : ℚ :=
  (jsShrAnd hash shift mask : ℚ) / (mask : ℚ)

/-- `animationStyle || entityType || "cosmic"`: JavaScript falsy fallback
(the empty string is falsy). -/
def fallbackLabel (animationStyle entityType : String) : String :=
  if animationStyle ≠ "" then animationStyle
  else if entityType ≠ "" then entityType
  else "cosmic"

/-- `StyleVariant` record of the source. -/
structure StyleVariant where
  baseStyle : BaseStyle
  speedMultiplier : ℚ
  densityMultiplier : ℚ
  intensity : ℚ
  oscillationPhase : ℚ
  distortion : ℚ
  seed : ℕ
deriving DecidableEq, Repr

/-- `getStyleVariant`: derive a deterministic style variant from the animation
style label and the entity type. -/
def getStyleVariant (animationStyle entityType : String) : StyleVariant :=
  let hash : ℕ := (hashString (fallbackLabel animationStyle entityType)).natAbs
  let bias : List BaseStyle := (TYPE_STYLE_BIAS entityType).getD BASE_STYLES
  let baseStyle : BaseStyle := bias.getD (hash % bias.length) .drift
  { baseStyle := baseStyle
    speedMultiplier := 0.6 + takeBits hash 2 * 2.2
    densityMultiplier := 0.7 + takeBits hash 10 * 2.5
    intensity := 0.5 + takeBits hash 18 * 1.5
    oscillationPhase := takeBits hash 24 * MathPI * 2
    distortion := takeBits hash 5 0x3f
    seed := hash }

/-- `getWeatherText`: map a numeric weather code to an overlay label. -/
def getWeatherText (weatherCode : ℤ) : String :=
  if weatherCode = 0 then "CLEAR"
  else if 1 ≤ weatherCode ∧ weatherCode ≤ 3 then "CLOUDY"
  else if 45 ≤ weatherCode ∧ weatherCode ≤ 48 then "FOGGY"
  else if 51 ≤ weatherCode ∧ weatherCode ≤ 67 then "RAINY"
  else if 71 ≤ weatherCode ∧ weatherCode ≤ 77 then "SNOWY"
  else if 80 ≤ weatherCode ∧ weatherCode ≤ 99 then "STORMY"
  else "UNKNOWN"

/-! ## Auto-play scene state machine (`checkSceneChange`, `CosmicASCIIScene`) -/

/-- The playback state held by the component: current entity index, next
entity index, `lastSceneChangeRef`, `transitionProgress`, `isTransitioning`. -/
structure SceneState where
  currentEntityIndex : ℕ
  nextEntityIndex : ℕ
  lastSceneChange : ℤ
  transitionProgress : ℚ
  isTransitioning : Bool
deriving DecidableEq, Repr

/-- `const transitionDuration = 1000` (1 second crossfade), in milliseconds. -/
def transitionDuration : ℤ := 1000

/-- One tick of `checkSceneChange`, as a pure function of the entity
durations, the playback state and the tick's `Date.now()` value.
The division `transitionElapsed / transitionDuration` is the exact rational
`mkRat (elapsed - duration) 1000`. -/
def checkSceneChange (durations : List ℤ) (s : SceneState) (now : ℤ) : SceneState :=
  let elapsed := now - s.lastSceneChange
  let duration := durations.getD s.currentEntityIndex 0
  if elapsed ≥ duration + transitionDuration then
    { currentEntityIndex := s.nextEntityIndex
      nextEntityIndex := (s.nextEntityIndex + 1) % durations.length
      lastSceneChange := now
      transitionProgress := 0
      isTransitioning := false }
  else if elapsed ≥ duration ∧ s.isTransitioning = false then
    { s with isTransitioning := true }
  else if s.isTransitioning then
    { s with transitionProgress := mkRat (elapsed - duration) 1000 }
  else s

/-- Fold `checkSceneChange` over a list of tick times. -/
def runTicks (durations : List ℤ) (s : SceneState) (ticks : List ℤ) : SceneState :=
  ticks.foldl (checkSceneChange durations) s

/-- The state at component mount: indices `0`/`1`, clock at the mount time,
no transition in progress. -/
def initialSceneState (mountTime : ℤ) : SceneState :=
  { currentEntityIndex := 0
    nextEntityIndex := 1
    lastSceneChange := mountTime
    transitionProgress := 0
    isTransitioning := false }

/-! ## Interactive mode (`render` in the component, buttons in `page.tsx`) -/

/-- JavaScript `%`: remainder truncated toward zero (sign of the dividend). -/
def jsMod (a b : ℤ) : ℤ := a.tmod b

/-- `const activeEntityIndex = isInteractiveMode ? manualScene % COSMIC_ENTITIES.length : currentEntityIndex`. -/
def activeEntityIndex (isInteractiveMode : Bool) (manualScene : ℤ)
    (entityCount : ℕ) (currentEntityIndex : ℕ) : ℤ :=
  if isInteractiveMode then jsMod manualScene entityCount else currentEntityIndex

/-- Previous-scene button of the host page:
`setManualScene((prev) => (prev - 1 + totalEntities) % totalEntities)`. -/
def prevSceneClick (prev : ℤ) (totalEntities : ℕ) : ℤ :=
  jsMod (prev - 1 + totalEntities) totalEntities

/-- Next-scene button of the host page:
`setManualScene((prev) => (prev + 1) % totalEntities)`. -/
def nextSceneClick (prev : ℤ) (totalEntities : ℕ) : ℤ :=
  jsMod (prev + 1) totalEntities

/-- The cross-fade guard of `render`: `isTransitioning && !isInteractiveMode`. -/
def renderUsesCrossfade (isTransitioning isInteractiveMode : Bool) : Bool :=
  isTransitioning && !isInteractiveMode

/-- The scene-change effect: it returns before installing the interval when
`isInteractiveMode` holds, so a tick leaves the playback state unchanged. -/
def autoTick (isInteractiveMode : Bool) (durations : List ℤ) (s : SceneState)
    (now : ℤ) : SceneState :=
  if isInteractiveMode then s else checkSceneChange durations s now

/-! ## Colors and ordered dithering (`hexToRgb`, `applyEnhancedDithering`) -/

/-- The entity's three-color palette (`colorPalette` of `CosmicEntity`). -/
structure ColorPalette where
  primary : String
  secondary : String
  accent : String
deriving DecidableEq, Repr

/-- An RGB triple as returned by `hexToRgb` / a pixel's color channels. -/
structure Rgb where
  r : ℚ
  g : ℚ
  b : ℚ
deriving DecidableEq, Repr

/-- All channels of an RGB triple lie in `[0, 255]`. -/
def Rgb.InRange (c : Rgb) : Prop :=
  0 ≤ c.r ∧ c.r ≤ 255 ∧ 0 ≤ c.g ∧ c.g ≤ 255 ∧ 0 ≤ c.b ∧ c.b ≤ 255

/-- Value of one hex digit (the character classes `\d`, `a-f`, `A-F` of the
`hexToRgb` regular expression), by character code. -/
def hexDigitVal? (c : Char) : Option ℕ :=
  let n := c.toNat
  if 48 ≤ n ∧ n ≤ 57 then some (n - 48)
  else if 97 ≤ n ∧ n ≤ 102 then some (n - 97 + 10)
  else if 65 ≤ n ∧ n ≤ 70 then some (n - 65 + 10)
  else none

/-- Value of a two-hex-digit group (`Number.parseInt(result[k], 16)`). -/
def hexPairVal? (c₁ c₂ : Char) : Option ℕ :=
  match hexDigitVal? c₁, hexDigitVal? c₂ with
  | some a, some b => some (16 * a + b)
  | _, _ => none

/-- The digit-group part of `hexToRgb`: exactly six hex digits parse to a
triple; anything else falls back to black. -/
def hexToRgbDigits (cs : List Char) : Rgb :=
  match cs with
  | [c₁, c₂, c₃, c₄, c₅, c₆] =>
    match hexPairVal? c₁ c₂, hexPairVal? c₃ c₄, hexPairVal? c₅ c₆ with
    | some r, some g, some b => ⟨r, g, b⟩
    | _, _, _ => ⟨0, 0, 0⟩
  | _ => ⟨0, 0, 0⟩

/-- `hexToRgb`: parse `#?RRGGBB` (anchored, case-insensitive; the regular
expression's optional leading `#` is dropped first); on any mismatch return
`{ r := 0, g := 0, b := 0 }`. -/
def hexToRgb (hex : String) : Rgb :=
  hexToRgbDigits (if hex.data.head? = some '#' then hex.data.tail else hex.data)

/-- The 4×4 Bayer-style `ditherMatrix` of `applyEnhancedDithering`. -/
def ditherMatrix : List (List ℕ) :=
  [[0, 8, 2, 10], [12, 4, 14, 6], [3, 11, 1, 9], [15, 7, 13, 5]]

/-- `(ditherMatrix[y % 4][x % 4] / 16) * 255`. -/
def bayerThreshold (x y : ℕ) : ℚ :=
  (((ditherMatrix.getD (y % 4) []).getD (x % 4) 0 : ℕ) : ℚ) / 16 * 255

/-- Per-pixel luma `data[i] * 0.299 + data[i+1] * 0.587 + data[i+2] * 0.114`. -/
def luma (p : Rgb) : ℚ := p.r * 0.299 + p.g * 0.587 + p.b * 0.114

/-- The per-pixel body of `applyEnhancedDithering`'s double loop: bright
pixels get the clamped palette tint, dark pixels are darkened to 15%. -/
def ditherPixel (tint accent : Rgb) (x y : ℕ) (p : Rgb) : Rgb :=
  let threshold := bayerThreshold x y
  let gray := luma p
  if gray > threshold then
    let tintStrength := gray / 255
    { r := min 255 (p.r * 0.7 + tint.r * 0.2 + accent.r * 0.1 * tintStrength)
      g := min 255 (p.g * 0.7 + tint.g * 0.2 + accent.g * 0.1 * tintStrength)
      b := min 255 (p.b * 0.7 + tint.b * 0.2 + accent.b * 0.1 * tintStrength) }
  else
    { r := p.r * 0.15
      g := p.g * 0.15
      b := p.b * 0.15 }

/-- `applyEnhancedDithering` over a row-major pixel buffer of the given
width: pixel `i` sits at `x = i % width`, `y = i / width`. -/
def applyEnhancedDithering (width : ℕ) (data : List Rgb) (colors : ColorPalette) : List Rgb :=
  let tint := hexToRgb colors.secondary
  let accent := hexToRgb colors.accent
  data.mapIdx fun i p => ditherPixel tint accent (i % width) (i / width) p

/-! ## Particle pool (`renderEntity`, `createParticle`, `updateParticles`) -/

/-- The `Particle` record of the source. -/
structure Particle where
  x : ℚ
  y : ℚ
  vx : ℚ
  vy : ℚ
  life : ℚ
  maxLife : ℚ
  char : String
  color : String
deriving DecidableEq, Repr

/-- Glyph set used by `createParticle` when a variant is supplied. -/
def PARTICLE_CHARSET_VARIANT : List String :=
  ["·", "∙", "•", "○", "✶", "✷", "✸", "✹", "✺", "✻"]

/-- Glyph set used by `createParticle` without a variant. -/
def PARTICLE_CHARSET_PLAIN : List String := ["·", "∙", "•", "○"]

/-- `createParticle`: spawn a particle inside the canvas.  The `Math.random()`
draws of the call are supplied by the oracle `rnd` (each in `[0,1)`). -/
def createParticle (width height : ℚ) (variant : Option StyleVariant)
    (colors : Option ColorPalette) (rnd : ℕ → ℚ) : Particle :=
  let seed : ℚ := match variant with
    | some v => (v.seed : ℚ)
    | none => rnd 0 * 1000
  let charSet : List String :=
    if variant.isSome then PARTICLE_CHARSET_VARIANT else PARTICLE_CHARSET_PLAIN
  let char := charSet.getD ((⌊seed⌋ + ⌊rnd 1 * charSet.length⌋).natAbs % charSet.length) "·"
  let palette : List String := match colors with
    | some c => [c.primary, c.secondary, c.accent]
    | none => ["#FFFFFF"]
  let color := palette.getD ((⌊seed / 3⌋).natAbs % palette.length) "#FFFFFF"
  { x := rnd 2 * width
    y := rnd 3 * height
    vx := (rnd 4 - 0.5) * 0.5
    vy := (rnd 5 - 0.5) * 0.5
    life := rnd 6 * 100
    maxLife := 100
    char := char
    color := color }

/-- `renderEntity`'s pool target: `Math.max(40, Math.floor(90 * variant.densityMultiplier))`. -/
def targetParticleCount (variant : StyleVariant) : ℕ :=
  max 40 (⌊(90 : ℚ) * variant.densityMultiplier⌋.toNat)

/-- The pool-adjustment step at the top of `renderEntity`: grow by pushing
newly spawned particles while short, shrink by popping from the end while
long.  `spawn k` is the particle pushed by the `k`-th iteration of the grow
loop. -/
def adjustPool (particles : List Particle) (target : ℕ) (spawn : ℕ → Particle) : List Particle :=
  if particles.length < target then
    particles ++ (List.range (target - particles.length)).map spawn
  else
    particles.take target

/-- The per-particle body of `updateParticles`: advance, age, and respawn in
place when expired or out of bounds.  `sinv` stands for `Math.sin`, `rnd`
supplies the `Math.random()` draws of the respawn branch. -/
def updateParticle (width height : ℚ) (colors : ColorPalette) (variant : StyleVariant)
    (sinv : ℚ → ℚ) (rnd : ℕ → ℚ) (p : Particle) : Particle :=
  let speedFactor := 0.4 * variant.speedMultiplier
  let x := p.x + p.vx * speedFactor
  let y := p.y + p.vy * speedFactor
  let life := p.life - (0.4 + variant.intensity * 0.2)
  if life ≤ 0 ∨ x < 0 ∨ x > width ∨ y < 0 ∨ y > height then
    let newX := rnd 0 * width
    let newY := rnd 1 * height
    let newLife := p.maxLife
    let palette : List String := [colors.primary, colors.secondary, colors.accent]
    let offset := |sinv ((variant.seed : ℚ) + newLife)| * (palette.length : ℚ)
    let newColor := palette.getD (⌊offset⌋.toNat % palette.length) p.color
    { p with
      x := newX
      y := newY
      life := newLife
      color := newColor
      vx := (rnd 2 - 0.5) * variant.speedMultiplier
      vy := (rnd 3 - 0.5) * variant.speedMultiplier }
  else
    { p with x := x, y := y, life := life }

/-- `updateParticles`: apply `updateParticle` to every particle of the pool
(`forEach` mutates each in place; `rnd i` is the draw oracle of particle `i`). -/
def updateParticles (particles : List Particle) (width height : ℚ)
    (colors : ColorPalette) (variant : StyleVariant) (sinv : ℚ → ℚ)
    (rnd : ℕ → ℕ → ℚ) : List Particle :=
  particles.mapIdx fun i p => updateParticle width height colors variant sinv (rnd i) p

/-! ## Spec-side definitions used by refinement-style claims -/

/-- The spec's description of the rolling hash: multiply the running hash by
31 and add the character code, truncating to a signed 32-bit integer at
every step. -/
def specRollingHash (value : String) : ℤ :=
  value.data.foldl (fun hash c => toInt32 (31 * hash + c.toNat)) 0

/-! ## Scenario data and invariants for the auto-play machine -/

/-- The durations of the spec's three-entity scenario catalog, in ms. -/
def scenarioDurations : List ℤ := [2000, 3000, 4000]

/-- `n` ticks of the 16 ms interval cadence, starting at `t = 16`. -/
def ticksEvery16 (n : ℕ) : List ℤ :=
  (List.range n).map fun (k : ℕ) => ((16 * (k + 1) : ℕ) : ℤ)

/-- Every-16 ms ticks up to `t = 2496`, then the probe tick at `t = 2500`. -/
def ticksTo2500 : List ℤ := ticksEvery16 156 ++ [2500]

/-- Continue the 16 ms cadence after the probe (`2512 … 2992`), then the
probe tick at `t = 3000`. -/
def ticksTo3000 : List ℤ :=
  ticksTo2500 ++ ((List.range 31).map fun (k : ℕ) => ((2512 + 16 * k : ℕ) : ℤ)) ++ [3000]

/-- Reachability invariant of the playback state for an `n`-entity catalog:
the current index is in range, the next index trails it by exactly one step
modulo `n`, and outside a transition the progress is zero. -/
def SceneInv (n : ℕ) (s : SceneState) : Prop :=
  s.currentEntityIndex < n ∧
  s.nextEntityIndex = (s.currentEntityIndex + 1) % n ∧
  (s.isTransitioning = false → s.transitionProgress = 0)

/-- A concrete particle used as the spawn oracle of closed statements. -/
def someParticle : Particle :=
  { x := 0, y := 0, vx := 0, vy := 0, life := 0, maxLife := 100, char := "·", color := "#FFFFFF" }

/-! ## Helper lemmas -/

/-- Indexing any nonempty list at `n % length` hits a member of the list. -/
lemma getD_mod_mem {α : Type} (l : List α) (d : α) (n : ℕ) (h : l ≠ []) :
    l.getD (n % l.length) d ∈ l := by
  have hl : 0 < l.length := List.length_pos.mpr h
  have hn : n % l.length < l.length := Nat.mod_lt _ hl
  rw [List.getD_eq_getElem?_getD, List.getElem?_eq_getElem hn]
  exact List.getElem_mem hn

/-- Every entry of the bias table has three styles, except `pulsar`'s two. -/
lemma TYPE_STYLE_BIAS_entries (t : String) (bl : List BaseStyle)
    (h : TYPE_STYLE_BIAS t = some bl) :
    bl.length = 3 ∨ bl = [BaseStyle.pulse, BaseStyle.flare] := by
  unfold TYPE_STYLE_BIAS at h
  split at h <;> simp_all <;> subst h <;> decide

/-- The double truncation of `hashStep` agrees with a single truncation of
`31 * hash + code`. -/
lemma hashStep_eq (hash : ℤ) (code : ℕ) :
    hashStep hash code = toInt32 (31 * hash + code) := by
  simp only [hashStep, toInt32]
  omega

/-- `takeBits` is nonnegative. -/
lemma takeBits_nonneg (hash shift mask : ℕ) : 0 ≤ takeBits hash shift mask := by
  unfold takeBits
  positivity

/-- `takeBits` is at most one (for a positive mask). -/
lemma takeBits_le_one (hash shift mask : ℕ) (hm : 0 < mask) :
    takeBits hash shift mask ≤ 1 := by
  unfold takeBits
  rw [div_le_one (by exact_mod_cast hm)]
  exact_mod_cast Nat.and_le_right

/-- The base style of a derived variant, unfolded. -/
lemma getStyleVariant_baseStyle (styleLabel entityType : String) :
    (getStyleVariant styleLabel entityType).baseStyle =
      ((TYPE_STYLE_BIAS entityType).getD BASE_STYLES).getD
        ((hashString (fallbackLabel styleLabel entityType)).natAbs %
          ((TYPE_STYLE_BIAS entityType).getD BASE_STYLES).length) .drift := rfl

/-- The intensity of every derived variant is at least `0.5`. -/
lemma getStyleVariant_intensity_ge (styleLabel entityType : String) :
    (0.5 : ℚ) ≤ (getStyleVariant styleLabel entityType).intensity := by
  have h := takeBits_nonneg (hashString (fallbackLabel styleLabel entityType)).natAbs 18 0xff
  show (0.5 : ℚ) ≤ 0.5 + takeBits _ 18 * 1.5
  nlinarith

/-- Commit step: once `elapsed ≥ duration + transitionDuration` the machine
advances the indices, resets the clock and leaves the transition. -/
lemma checkSceneChange_commit (durations : List ℤ) (s : SceneState) (now : ℤ)
    (h : durations.getD s.currentEntityIndex 0 + transitionDuration ≤ now - s.lastSceneChange) :
    checkSceneChange durations s now =
      ⟨s.nextEntityIndex, (s.nextEntityIndex + 1) % durations.length, now, 0, false⟩ := by
  simp only [checkSceneChange, transitionDuration] at *
  split_ifs <;> rfl

/-- Transition start: at the first tick with `elapsed ≥ duration` (before the
commit window) the machine only raises the transitioning flag. -/
lemma checkSceneChange_startTransition (durations : List ℤ) (s : SceneState) (now : ℤ)
    (h1 : now - s.lastSceneChange < durations.getD s.currentEntityIndex 0 + transitionDuration)
    (h2 : durations.getD s.currentEntityIndex 0 ≤ now - s.lastSceneChange)
    (h3 : s.isTransitioning = false) :
    checkSceneChange durations s now = { s with isTransitioning := true } := by
  simp only [checkSceneChange, transitionDuration] at *
  split_ifs with hA hB
  · exfalso; omega
  · rfl
  · exact absurd ⟨h2, h3⟩ hB
  · exact absurd ⟨h2, h3⟩ hB

/-- Transition progress: a tick inside the crossfade window of a
transitioning state overwrites the progress with `(elapsed − duration) / 1000`. -/
lemma checkSceneChange_updateProgress (durations : List ℤ) (s : SceneState) (now : ℤ)
    (h1 : now - s.lastSceneChange < durations.getD s.currentEntityIndex 0 + transitionDuration)
    (h2 : s.isTransitioning = true) :
    checkSceneChange durations s now =
      { s with transitionProgress :=
          mkRat (now - s.lastSceneChange - durations.getD s.currentEntityIndex 0) 1000 } := by
  simp only [checkSceneChange, transitionDuration] at *
  split_ifs with hA hB
  · exfalso; omega
  · exact absurd hB.2 (by simp [h2])
  · rfl

/-- No-op step: before the duration elapses a non-transitioning state is
left untouched. -/
lemma checkSceneChange_noop (durations : List ℤ) (s : SceneState) (now : ℤ)
    (h1 : now - s.lastSceneChange < durations.getD s.currentEntityIndex 0)
    (h2 : s.isTransitioning = false) :
    checkSceneChange durations s now = s := by
  simp only [checkSceneChange, transitionDuration] at *
  split_ifs with hA hB hC
  · exfalso; omega
  · exfalso; exact absurd hB.1 (by omega)
  · exact absurd hC (by simp [h2])
  · rfl

lemma runTicks_nil (durations : List ℤ) (s : SceneState) : runTicks durations s [] = s := rfl

lemma runTicks_cons (durations : List ℤ) (s : SceneState) (t : ℤ) (ts : List ℤ) :
    runTicks durations s (t :: ts) = runTicks durations (checkSceneChange durations s t) ts := rfl

lemma runTicks_append (durations : List ℤ) (s : SceneState) (a b : List ℤ) :
    runTicks durations s (a ++ b) = runTicks durations (runTicks durations s a) b := by
  simp [runTicks]

/-- A run of ticks that all land before the duration elapses leaves a
non-transitioning state untouched. -/
lemma runTicks_noop (durations : List ℤ) :
    ∀ (ticks : List ℤ) (s : SceneState), s.isTransitioning = false →
      (∀ t ∈ ticks, t - s.lastSceneChange < durations.getD s.currentEntityIndex 0) →
      runTicks durations s ticks = s := by
  intro ticks
  induction ticks with
  | nil => intro s _ _; rfl
  | cons t ts ih =>
    intro s hs h
    rw [runTicks_cons, checkSceneChange_noop durations s t (h t (by simp)) hs]
    exact ih s hs fun u hu => h u (by simp [hu])

/-- A run of ticks inside the crossfade window of a transitioning state ends
with the progress determined by the last tick alone. -/
lemma runTicks_transition (durations : List ℤ) :
    ∀ (ticks : List ℤ) (t : ℤ) (s : SceneState), s.isTransitioning = true →
      (∀ u ∈ ticks ++ [t], u - s.lastSceneChange <
        durations.getD s.currentEntityIndex 0 + transitionDuration) →
      runTicks durations s (ticks ++ [t]) =
        { s with transitionProgress :=
            mkRat (t - s.lastSceneChange - durations.getD s.currentEntityIndex 0) 1000 } := by
  intro ticks
  induction ticks with
  | nil =>
    intro t s hs h
    rw [List.nil_append]
    exact checkSceneChange_updateProgress durations s t (h t (by simp)) hs
  | cons u us ih =>
    intro t s hs h
    rw [List.cons_append, runTicks_cons,
      checkSceneChange_updateProgress durations s u (h u (by simp)) hs]
    rw [ih t _ (by simp [hs]) fun v hv => by simpa using h v (by simp at hv ⊢; tauto)]

/-! ## C1 — determinism of the style-variant derivation -/

/-- C1: `getStyleVariant` is deterministic — two calls with the same
`(styleLabel, entityType)` yield bit-identical records: the same `baseStyle`
and the same exact values of every numeric field, with no source of
randomness anywhere in the derivation (the definition consumes no oracle). -/
theorem getStyleVariant_deterministic (styleLabel entityType : String)
    (v₁ v₂ : StyleVariant)
    (h₁ : v₁ = getStyleVariant styleLabel entityType)
    (h₂ : v₂ = getStyleVariant styleLabel entityType) :
    v₁.baseStyle = v₂.baseStyle ∧
    v₁.speedMultiplier = v₂.speedMultiplier ∧
    v₁.densityMultiplier = v₂.densityMultiplier ∧
    v₁.intensity = v₂.intensity ∧
    v₁.oscillationPhase = v₂.oscillationPhase ∧
    v₁.distortion = v₂.distortion ∧
    v₁.seed = v₂.seed ∧
    v₁ = v₂ := by
  subst h₁
  subst h₂
  exact ⟨rfl, rfl, rfl, rfl, rfl, rfl, rfl, rfl⟩

/-- Witness for C1: the two calls of `deriveVariant("swirl", "blackhole")`
from the spec's end-to-end scenario agree on every field. -/
theorem getStyleVariant_deterministic_witness :
    (getStyleVariant "swirl" "blackhole").baseStyle =
      (getStyleVariant "swirl" "blackhole").baseStyle ∧
    (getStyleVariant "swirl" "blackhole") = (getStyleVariant "swirl" "blackhole") := by
  have h := getStyleVariant_deterministic "swirl" "blackhole" _ _ rfl rfl
  exact ⟨h.1, h.2.2.2.2.2.2.2⟩

/-! ## C2 — base style drawn from the bias table -/

/-- Counterexample to C2 as stated: the `pulsar` entry of the bias table has
two styles, not three. -/
theorem TYPE_STYLE_BIAS_pulsar_not_three :
    (TYPE_STYLE_BIAS "pulsar") = some [BaseStyle.pulse, BaseStyle.flare] ∧
    ¬ ((TYPE_STYLE_BIAS "pulsar").getD BASE_STYLES).length = 3 := by
  exact ⟨rfl, by decide⟩

/-- C2 (amended): for every entity type in the bias table the chosen base
style is drawn from that type's declared bias list (which has 3 elements for
every type except `pulsar`, whose list has 2); for every other type it is
drawn from the full 8-style set. -/
theorem getStyleVariant_baseStyle_mem_bias (styleLabel entityType : String) :
    (∀ bl : List BaseStyle, TYPE_STYLE_BIAS entityType = some bl →
      (getStyleVariant styleLabel entityType).baseStyle ∈ bl ∧
      (bl.length = 3 ∨ bl = [BaseStyle.pulse, BaseStyle.flare])) ∧
    (TYPE_STYLE_BIAS entityType = none →
      (getStyleVariant styleLabel entityType).baseStyle ∈ BASE_STYLES) := by
  constructor
  · intro bl hbl
    have hlen := TYPE_STYLE_BIAS_entries entityType bl hbl
    have hne : bl ≠ [] := by
      rcases hlen with h | h
      · intro hnil; rw [hnil] at h; simp at h
      · rw [h]; simp
    refine ⟨?_, hlen⟩
    rw [getStyleVariant_baseStyle, hbl]
    exact getD_mod_mem bl .drift _ hne
  · intro hnone
    rw [getStyleVariant_baseStyle, hnone]
    exact getD_mod_mem BASE_STYLES .drift _ (by decide)

/-- Witness for C2: for the known type `blackhole` the derived base style
lies in its declared list, and for the unknown type `asteroidfield` it lies
in the full 8-style set. -/
theorem getStyleVariant_baseStyle_mem_bias_witness :
    TYPE_STYLE_BIAS "blackhole" = some [BaseStyle.swirl, BaseStyle.ripple, BaseStyle.flare] ∧
    (getStyleVariant "swirl" "blackhole").baseStyle ∈
      [BaseStyle.swirl, BaseStyle.ripple, BaseStyle.flare] ∧
    TYPE_STYLE_BIAS "asteroidfield" = none ∧
    (getStyleVariant "drift" "asteroidfield").baseStyle ∈ BASE_STYLES := by
  refine ⟨rfl, ?_, rfl, ?_⟩
  · exact ((getStyleVariant_baseStyle_mem_bias "swirl" "blackhole").1 _ rfl).1
  · exact (getStyleVariant_baseStyle_mem_bias "drift" "asteroidfield").2 rfl

/-! ## C7 — weather code to label mapping -/

/-- C7: `getWeatherText` realises the documented range mapping: 0 → CLEAR,
1–3 → CLOUDY, 45–48 → FOGGY, 51–67 → RAINY, 71–77 → SNOWY, 80–99 → STORMY,
and every other code → UNKNOWN. -/
theorem getWeatherText_spec (weatherCode : ℤ) :
    (weatherCode = 0 → getWeatherText weatherCode = "CLEAR") ∧
    (1 ≤ weatherCode ∧ weatherCode ≤ 3 → getWeatherText weatherCode = "CLOUDY") ∧
    (45 ≤ weatherCode ∧ weatherCode ≤ 48 → getWeatherText weatherCode = "FOGGY") ∧
    (51 ≤ weatherCode ∧ weatherCode ≤ 67 → getWeatherText weatherCode = "RAINY") ∧
    (71 ≤ weatherCode ∧ weatherCode ≤ 77 → getWeatherText weatherCode = "SNOWY") ∧
    (80 ≤ weatherCode ∧ weatherCode ≤ 99 → getWeatherText weatherCode = "STORMY") ∧
    (¬ weatherCode = 0 ∧ ¬ (1 ≤ weatherCode ∧ weatherCode ≤ 3) ∧
      ¬ (45 ≤ weatherCode ∧ weatherCode ≤ 48) ∧ ¬ (51 ≤ weatherCode ∧ weatherCode ≤ 67) ∧
      ¬ (71 ≤ weatherCode ∧ weatherCode ≤ 77) ∧ ¬ (80 ≤ weatherCode ∧ weatherCode ≤ 99) →
      getWeatherText weatherCode = "UNKNOWN") := by
  refine ⟨?_, ?_, ?_, ?_, ?_, ?_, ?_⟩ <;>
    · intro h
      unfold getWeatherText
      split_ifs <;> first | rfl | omega

/-- Witness for C7: code 45 maps to FOGGY, code 100 maps to UNKNOWN. -/
theorem getWeatherText_spec_witness :
    ((45 : ℤ) ≤ 45 ∧ (45 : ℤ) ≤ 48) ∧ getWeatherText 45 = "FOGGY" ∧
    getWeatherText 100 = "UNKNOWN" := by
  refine ⟨⟨by norm_num, by norm_num⟩, ?_, ?_⟩
  · exact (getWeatherText_spec 45).2.2.1 (by norm_num)
  · exact (getWeatherText_spec 100).2.2.2.2.2.2 (by norm_num)

/-! ## C8 — the rolling hash and its use in `getStyleVariant` -/

/-- C8: `hashString` is the spec's polynomial rolling hash — start at 0,
multiply by 31 and add the character code, truncating to a signed 32-bit
integer at every step — and `getStyleVariant` hashes the style label with
fallback to the entity type and then to the fixed default string `"cosmic"`
when earlier arguments are empty, taking the absolute value of the hash as
its seed. -/
theorem hashString_spec :
    (∀ value : String, hashString value = specRollingHash value) ∧
    (∀ styleLabel entityType : String,
      (getStyleVariant styleLabel entityType).seed =
        (hashString (fallbackLabel styleLabel entityType)).natAbs) ∧
    (∀ styleLabel entityType : String, styleLabel ≠ "" →
      fallbackLabel styleLabel entityType = styleLabel) ∧
    (∀ entityType : String, entityType ≠ "" →
      fallbackLabel "" entityType = entityType) ∧
    fallbackLabel "" "" = "cosmic" := by
  refine ⟨?_, ?_, ?_, ?_, rfl⟩
  · intro value
    simp only [hashString, specRollingHash, hashStep_eq]
  · intro styleLabel entityType
    rfl
  · intro styleLabel entityType h
    simp [fallbackLabel, h]
  · intro entityType h
    simp [fallbackLabel, h]

/-- Witness for C8: the fallback chain at concrete inputs — a nonempty style
label wins, an empty label falls back to the type, two empty strings fall
back to `"cosmic"`, and the seed of the spec's example pair is the absolute
value of the hash of its label. -/
theorem hashString_spec_witness :
    ("swirl" : String) ≠ "" ∧ fallbackLabel "swirl" "blackhole" = "swirl" ∧
    ("nebula" : String) ≠ "" ∧ fallbackLabel "" "nebula" = "nebula" ∧
    fallbackLabel "" "" = "cosmic" ∧
    (getStyleVariant "swirl" "blackhole").seed = (hashString "swirl").natAbs := by
  refine ⟨by decide, ?_, by decide, ?_, ?_, ?_⟩
  · exact hashString_spec.2.2.1 "swirl" "blackhole" (by decide)
  · exact hashString_spec.2.2.2.1 "nebula" (by decide)
  · exact hashString_spec.2.2.2.2
  · exact hashString_spec.2.1 "swirl" "blackhole"

/-! ## C3 — the auto-play state machine and the 3-entity scenario -/

set_option maxRecDepth 8000 in
/-- C3: stepping `checkSceneChange` — in Showing, once elapsed reaches the
current duration the machine moves to Transitioning with progress 0; while
Transitioning, a tick sets progress to `(elapsed − duration) / 1000`; once
`elapsed ≥ duration + 1000` it commits (current ← next,
next ← (next + 1) mod count, clock reset, progress 0, back to Showing).
For the catalog with durations `[2000, 3000, 4000]` ticked every 16 ms from
`t = 0` plus probe ticks: at the tick at `t = 2500` the machine is
Transitioning with progress `1/2`, and at the tick at `t = 3000` it has
committed to entity 1 with its clock reset. -/
theorem checkSceneChange_spec :
    (∀ (durations : List ℤ) (s : SceneState) (now : ℤ),
      s.isTransitioning = false → s.transitionProgress = 0 →
      durations.getD s.currentEntityIndex 0 ≤ now - s.lastSceneChange →
      now - s.lastSceneChange < durations.getD s.currentEntityIndex 0 + 1000 →
      (checkSceneChange durations s now).isTransitioning = true ∧
      (checkSceneChange durations s now).transitionProgress = 0) ∧
    (∀ (durations : List ℤ) (s : SceneState) (now : ℤ),
      s.isTransitioning = true →
      now - s.lastSceneChange < durations.getD s.currentEntityIndex 0 + 1000 →
      (checkSceneChange durations s now).transitionProgress =
        ((now - s.lastSceneChange - durations.getD s.currentEntityIndex 0 : ℤ) : ℚ) / 1000 ∧
      (checkSceneChange durations s now).isTransitioning = true) ∧
    (∀ (durations : List ℤ) (s : SceneState) (now : ℤ),
      durations.getD s.currentEntityIndex 0 + 1000 ≤ now - s.lastSceneChange →
      checkSceneChange durations s now =
        ⟨s.nextEntityIndex, (s.nextEntityIndex + 1) % durations.length, now, 0, false⟩) ∧
    runTicks scenarioDurations (initialSceneState 0) ticksTo2500 = ⟨0, 1, 0, 1/2, true⟩ ∧
    runTicks scenarioDurations (initialSceneState 0) ticksTo3000 = ⟨1, 2, 3000, 0, false⟩ := by
  have h2000 : runTicks scenarioDurations (initialSceneState 0) [2000] = ⟨0, 1, 0, 0, true⟩ := by
    rw [runTicks_cons, runTicks_nil,
      checkSceneChange_startTransition scenarioDurations (initialSceneState 0) 2000
        (by decide) (by decide) rfl]
    rfl
  have hnoop : ∀ t ∈ ticksEvery16 124,
      t - (initialSceneState 0).lastSceneChange <
        scenarioDurations.getD (initialSceneState 0).currentEntityIndex 0 := by
    intro t ht
    rw [ticksEvery16, List.mem_map] at ht
    obtain ⟨k, hk, rfl⟩ := ht
    rw [List.mem_range] at hk
    show ((16 * (k + 1) : ℕ) : ℤ) - 0 < 2000
    omega
  have hto2500 :
      runTicks scenarioDurations (initialSceneState 0) ticksTo2500 = ⟨0, 1, 0, 1/2, true⟩ := by
    have hsplit : ticksTo2500 = (ticksEvery16 124 ++ [2000]) ++
        (((List.range 31).map fun (k : ℕ) => ((2016 + 16 * k : ℕ) : ℤ)) ++ [2500]) := by
      decide
    rw [hsplit,
      runTicks_append scenarioDurations (initialSceneState 0) (ticksEvery16 124 ++ [2000]) _,
      runTicks_append scenarioDurations (initialSceneState 0) (ticksEvery16 124) [2000],
      runTicks_noop scenarioDurations (ticksEvery16 124) (initialSceneState 0) rfl hnoop,
      h2000,
      runTicks_transition scenarioDurations
        ((List.range 31).map fun (k : ℕ) => ((2016 + 16 * k : ℕ) : ℤ))
        2500 ⟨0, 1, 0, 0, true⟩ rfl ?window]
    case window =>
      intro u hu
      rw [List.mem_append, List.mem_map] at hu
      show u - 0 < 2000 + transitionDuration
      rw [transitionDuration]
      rcases hu with ⟨k, hk, rfl⟩ | hu
      · rw [List.mem_range] at hk; omega
      · rw [List.mem_singleton] at hu; omega
    show (⟨0, 1, 0, mkRat 500 1000, true⟩ : SceneState) = _
    norm_num [Rat.mkRat_eq_div]
  have hto3000 :
      runTicks scenarioDurations (initialSceneState 0) ticksTo3000 = ⟨1, 2, 3000, 0, false⟩ := by
    have hsplit : ticksTo3000 = ticksTo2500 ++
        ((((List.range 30).map fun (k : ℕ) => ((2512 + 16 * k : ℕ) : ℤ)) ++ [2992]) ++ [3000]) := by
      decide
    rw [hsplit,
      runTicks_append scenarioDurations (initialSceneState 0) ticksTo2500 _,
      hto2500,
      runTicks_append scenarioDurations ⟨0, 1, 0, 1/2, true⟩
        (((List.range 30).map fun (k : ℕ) => ((2512 + 16 * k : ℕ) : ℤ)) ++ [2992]) [3000],
      runTicks_transition scenarioDurations
        ((List.range 30).map fun (k : ℕ) => ((2512 + 16 * k : ℕ) : ℤ))
        2992 ⟨0, 1, 0, 1/2, true⟩ rfl ?windowB]
    case windowB =>
      intro u hu
      rw [List.mem_append, List.mem_map] at hu
      show u - 0 < 2000 + transitionDuration
      rw [transitionDuration]
      rcases hu with ⟨k, hk, rfl⟩ | hu
      · rw [List.mem_range] at hk; omega
      · rw [List.mem_singleton] at hu; omega
    rw [runTicks_cons, runTicks_nil,
      checkSceneChange_commit scenarioDurations _ 3000 (by decide)]
    rfl
  refine ⟨?_, ?_, ?_, hto2500, hto3000⟩
  · intro durations s now hT hP hd hw
    rw [checkSceneChange_startTransition durations s now hw hd hT]
    exact ⟨rfl, hP⟩
  · intro durations s now hT hw
    rw [checkSceneChange_updateProgress durations s now hw hT]
    refine ⟨?_, hT⟩
    show mkRat _ 1000 = _
    rw [Rat.mkRat_eq_div]
    norm_num
  · intro durations s now h
    exact checkSceneChange_commit durations s now h

/-- Witness for C3: a commit tick at `t = 3000` on a transitioning state of
the scenario catalog advances to entity 1 and resets clock and progress. -/
theorem checkSceneChange_spec_witness :
    scenarioDurations.getD 0 0 + 1000 ≤ (3000 : ℤ) - 0 ∧
    checkSceneChange scenarioDurations ⟨0, 1, 0, 7/10, true⟩ 3000 = ⟨1, 2, 3000, 0, false⟩ := by
  refine ⟨by decide, ?_⟩
  have h := checkSceneChange_spec.2.2.1 scenarioDurations ⟨0, 1, 0, 7/10, true⟩ 3000 (by decide)
  simpa using h

/-! ## C4 — order, monotone progress, reset after commit -/

/-- C4: under auto-play the machine preserves the reachability invariant
`SceneInv` and each tick either keeps the current index or advances it by
exactly one step modulo the catalog length with progress reset to 0; within
a transition, progress over two successive in-window ticks is monotonically
non-decreasing. -/
theorem autoPlay_order_monotone :
    (∀ (durations : List ℤ) (s : SceneState) (now : ℤ),
      0 < durations.length → SceneInv durations.length s →
      SceneInv durations.length (checkSceneChange durations s now) ∧
      ((checkSceneChange durations s now).currentEntityIndex = s.currentEntityIndex ∨
        ((checkSceneChange durations s now).currentEntityIndex =
            (s.currentEntityIndex + 1) % durations.length ∧
          (checkSceneChange durations s now).transitionProgress = 0))) ∧
    (∀ (durations : List ℤ) (s : SceneState) (t₁ t₂ : ℤ),
      s.isTransitioning = true → t₁ ≤ t₂ →
      t₁ - s.lastSceneChange < durations.getD s.currentEntityIndex 0 + 1000 →
      t₂ - s.lastSceneChange < durations.getD s.currentEntityIndex 0 + 1000 →
      (checkSceneChange durations s t₁).transitionProgress ≤
        (checkSceneChange durations (checkSceneChange durations s t₁) t₂).transitionProgress) := by
  constructor
  · intro durations s now hn hinv
    obtain ⟨hcur, hnext, hprog⟩ := hinv
    by_cases hA : durations.getD s.currentEntityIndex 0 + transitionDuration ≤
        now - s.lastSceneChange
    · rw [checkSceneChange_commit durations s now hA]
      refine ⟨⟨?_, rfl, fun _ => rfl⟩, Or.inr ⟨by rw [hnext], rfl⟩⟩
      rw [hnext]
      exact Nat.mod_lt _ hn
    · by_cases hC : s.isTransitioning = true
      · rw [checkSceneChange_updateProgress durations s now (by rw [transitionDuration] at hA ⊢; omega) hC]
        exact ⟨⟨hcur, hnext, fun h => absurd (h ▸ hC) (by simp)⟩, Or.inl rfl⟩
      · have hC' : s.isTransitioning = false := by
          revert hC; cases s.isTransitioning <;> simp
        by_cases hB : durations.getD s.currentEntityIndex 0 ≤ now - s.lastSceneChange
        · rw [checkSceneChange_startTransition durations s now
            (by rw [transitionDuration] at hA ⊢; omega) hB hC']
          exact ⟨⟨hcur, hnext, fun h => by simp at h⟩, Or.inl rfl⟩
        · rw [checkSceneChange_noop durations s now (by omega) hC']
          exact ⟨⟨hcur, hnext, hprog⟩, Or.inl rfl⟩
  · intro durations s t₁ t₂ hT hle hw₁ hw₂
    rw [checkSceneChange_updateProgress durations s t₁ (by rw [transitionDuration]; omega) hT]
    rw [checkSceneChange_updateProgress durations
      ⟨s.currentEntityIndex, s.nextEntityIndex, s.lastSceneChange,
        mkRat (t₁ - s.lastSceneChange - durations.getD s.currentEntityIndex 0) 1000,
        s.isTransitioning⟩ t₂
      (by show t₂ - s.lastSceneChange <
            durations.getD s.currentEntityIndex 0 + transitionDuration
          rw [transitionDuration]; omega)
      hT]
    show mkRat (t₁ - s.lastSceneChange - durations.getD s.currentEntityIndex 0) 1000 ≤
      mkRat (t₂ - s.lastSceneChange - durations.getD s.currentEntityIndex 0) 1000
    rw [Rat.mkRat_eq_div, Rat.mkRat_eq_div]
    rw [div_le_div_iff_of_pos_right (by norm_num)]
    exact_mod_cast by omega

/-- Witness for C4: one tick on the initial state of the scenario catalog
preserves the invariant and moves the index by at most one step. -/
theorem autoPlay_order_monotone_witness :
    0 < scenarioDurations.length ∧
    SceneInv scenarioDurations.length (initialSceneState 0) ∧
    (SceneInv scenarioDurations.length
        (checkSceneChange scenarioDurations (initialSceneState 0) 100) ∧
      ((checkSceneChange scenarioDurations (initialSceneState 0) 100).currentEntityIndex =
          (initialSceneState 0).currentEntityIndex ∨
        ((checkSceneChange scenarioDurations (initialSceneState 0) 100).currentEntityIndex =
            ((initialSceneState 0).currentEntityIndex + 1) % scenarioDurations.length ∧
          (checkSceneChange scenarioDurations (initialSceneState 0) 100).transitionProgress =
            0))) := by
  have hinv : SceneInv scenarioDurations.length (initialSceneState 0) :=
    ⟨by decide, by decide, fun _ => rfl⟩
  exact ⟨by decide, hinv,
    autoPlay_order_monotone.1 scenarioDurations (initialSceneState 0) 100 (by decide) hinv⟩

/-! ## C5 — interactive mode -/

/-- C5: in interactive mode the renderer shows `manualScene mod entityCount`
— for the host-maintained nonnegative indices the JavaScript remainder is the
mathematical modulus, and both navigation buttons keep the index inside
`[0, entityCount)` (the previous-scene button adds the catalog length before
taking the modulus, so a decrement wrap never goes negative); the auto-play
tick and the cross-fade blending are bypassed entirely, and the auto-play
index is ignored. -/
theorem interactiveMode_spec :
    (∀ (manualScene : ℤ) (entityCount currentIndex : ℕ),
      0 ≤ manualScene → 0 < entityCount →
      activeEntityIndex true manualScene entityCount currentIndex =
        manualScene % (entityCount : ℤ)) ∧
    (∀ (prev : ℤ) (totalEntities : ℕ), 0 ≤ prev → prev < (totalEntities : ℤ) →
      prevSceneClick prev totalEntities = (prev - 1 + totalEntities) % (totalEntities : ℤ) ∧
      0 ≤ prevSceneClick prev totalEntities ∧
      prevSceneClick prev totalEntities < (totalEntities : ℤ)) ∧
    (∀ (prev : ℤ) (totalEntities : ℕ), 0 ≤ prev → 0 < totalEntities →
      nextSceneClick prev totalEntities = (prev + 1) % (totalEntities : ℤ) ∧
      0 ≤ nextSceneClick prev totalEntities ∧
      nextSceneClick prev totalEntities < (totalEntities : ℤ)) ∧
    (∀ (durations : List ℤ) (s : SceneState) (now : ℤ),
      autoTick true durations s now = s) ∧
    (∀ isTransitioning : Bool, renderUsesCrossfade isTransitioning true = false) ∧
    (∀ (manualScene : ℤ) (entityCount c₁ c₂ : ℕ),
      activeEntityIndex true manualScene entityCount c₁ =
        activeEntityIndex true manualScene entityCount c₂) := by
  refine ⟨?_, ?_, ?_, fun _ _ _ => rfl, fun b => by simp [renderUsesCrossfade],
    fun _ _ _ _ => rfl⟩
  · intro m n c hm hn
    show jsMod m n = m % (n : ℤ)
    exact Int.tmod_eq_emod hm (by positivity)
  · intro p n hp hn
    have h0 : (0 : ℤ) ≤ p - 1 + n := by omega
    have hmod : jsMod (p - 1 + n) n = (p - 1 + n) % (n : ℤ) :=
      Int.tmod_eq_emod h0 (by positivity)
    refine ⟨hmod, ?_, ?_⟩
    · rw [prevSceneClick, hmod]
      exact Int.emod_nonneg _ (by omega)
    · rw [prevSceneClick, hmod]
      exact Int.emod_lt_of_pos _ (by omega)
  · intro p n hp hn
    have h0 : (0 : ℤ) ≤ p + 1 := by omega
    have hmod : jsMod (p + 1) n = (p + 1) % (n : ℤ) :=
      Int.tmod_eq_emod h0 (by positivity)
    refine ⟨hmod, ?_, ?_⟩
    · rw [nextSceneClick, hmod]
      exact Int.emod_nonneg _ (by positivity)
    · rw [nextSceneClick, hmod]
      exact Int.emod_lt_of_pos _ (by exact_mod_cast hn)

/-- Witness for C5: from scene 0 of a 30-entity catalog the previous-scene
button wraps to 29, the next-scene button goes to 1, and with
`manualScene = 5` the renderer shows entity `5 mod 30 = 5` while the
auto-play tick leaves the playback state untouched. -/
theorem interactiveMode_spec_witness :
    ((0 : ℤ) ≤ 0 ∧ (0 : ℤ) < (30 : ℕ)) ∧
    prevSceneClick 0 30 = ((0 : ℤ) - 1 + 30) % ((30 : ℕ) : ℤ) ∧
    nextSceneClick 0 30 = ((0 : ℤ) + 1) % ((30 : ℕ) : ℤ) ∧
    activeEntityIndex true 5 30 0 = (5 : ℤ) % ((30 : ℕ) : ℤ) ∧
    autoTick true scenarioDurations (initialSceneState 0) 2500 = initialSceneState 0 := by
  refine ⟨⟨le_refl 0, by norm_num⟩, ?_, ?_, ?_, ?_⟩
  · exact (interactiveMode_spec.2.1 0 30 (le_refl 0) (by norm_num)).1
  · exact (interactiveMode_spec.2.2.1 0 30 (le_refl 0) (by norm_num)).1
  · exact interactiveMode_spec.1 5 30 0 (by norm_num) (by norm_num)
  · exact interactiveMode_spec.2.2.2.1 scenarioDurations (initialSceneState 0) 2500

/-! ## C6 — the ordered-dithering post-process -/

/-- Membership in a `mapIdx` image comes from an index of the source list. -/
lemma mem_mapIdx {α β : Type} (f : ℕ → α → β) (l : List α) (q : β)
    (h : q ∈ l.mapIdx f) : ∃ (i : ℕ) (hi : i < l.length), q = f i (l.get ⟨i, hi⟩) := by
  obtain ⟨⟨i, hi⟩, hq⟩ := List.mem_iff_get.mp h
  have hi' : i < l.length := by simpa using hi
  exact ⟨i, hi', by rw [← hq, List.get_mapIdx]⟩

lemma hexDigitVal?_lt (c : Char) (v : ℕ) (h : hexDigitVal? c = some v) : v < 16 := by
  simp only [hexDigitVal?] at h
  split_ifs at h
  all_goals (injection h with h; omega)

lemma hexPairVal?_le (c₁ c₂ : Char) (v : ℕ) (h : hexPairVal? c₁ c₂ = some v) : v ≤ 255 := by
  unfold hexPairVal? at h
  cases ha : hexDigitVal? c₁ with
  | none => rw [ha] at h; exact Option.noConfusion h
  | some a =>
    cases hb : hexDigitVal? c₂ with
    | none => rw [ha, hb] at h; exact Option.noConfusion h
    | some b =>
      rw [ha, hb] at h
      injection h with h
      have h₁ := hexDigitVal?_lt c₁ a ha
      have h₂ := hexDigitVal?_lt c₂ b hb
      omega

/-- Every triple produced by `hexToRgbDigits` has its channels in `[0, 255]`. -/
lemma hexToRgbDigits_inRange (cs : List Char) : (hexToRgbDigits cs).InRange := by
  unfold hexToRgbDigits
  split
  · split
    · rename_i r g b hr hg hb
      have h₁ := hexPairVal?_le _ _ _ hr
      have h₂ := hexPairVal?_le _ _ _ hg
      have h₃ := hexPairVal?_le _ _ _ hb
      refine ⟨by positivity, ?_, by positivity, ?_, by positivity, ?_⟩
      · show ((r : ℚ)) ≤ 255; exact_mod_cast h₁
      · show ((g : ℚ)) ≤ 255; exact_mod_cast h₂
      · show ((b : ℚ)) ≤ 255; exact_mod_cast h₃
    · exact ⟨le_refl 0, by norm_num, le_refl 0, by norm_num, le_refl 0, by norm_num⟩
  · exact ⟨le_refl 0, by norm_num, le_refl 0, by norm_num, le_refl 0, by norm_num⟩

/-- Every triple produced by `hexToRgb` has its channels in `[0, 255]`. -/
lemma hexToRgb_inRange (hex : String) : (hexToRgb hex).InRange :=
  hexToRgbDigits_inRange _

lemma luma_bounds (p : Rgb) (hp : p.InRange) : 0 ≤ luma p ∧ luma p ≤ 255 := by
  obtain ⟨h1, h2, h3, h4, h5, h6⟩ := hp
  unfold luma
  constructor <;> nlinarith

lemma bayerThreshold_nonneg (x y : ℕ) : 0 ≤ bayerThreshold x y := by
  unfold bayerThreshold
  positivity

/-- One dithered pixel of an in-range input stays in range. -/
lemma ditherPixel_inRange (tint accent : Rgb) (x y : ℕ) (p : Rgb)
    (ht : tint.InRange) (ha : accent.InRange) (hp : p.InRange) :
    (ditherPixel tint accent x y p).InRange := by
  obtain ⟨hp1, hp2, hp3, hp4, hp5, hp6⟩ := hp
  obtain ⟨ht1, ht2, ht3, ht4, ht5, ht6⟩ := ht
  obtain ⟨ha1, ha2, ha3, ha4, ha5, ha6⟩ := ha
  obtain ⟨hl0, hl255⟩ := luma_bounds p ⟨hp1, hp2, hp3, hp4, hp5, hp6⟩
  simp only [ditherPixel]
  split_ifs with hgray
  · refine ⟨le_min (by norm_num) (by unfold luma at *; nlinarith), min_le_left _ _,
      le_min (by norm_num) (by unfold luma at *; nlinarith), min_le_left _ _,
      le_min (by norm_num) (by unfold luma at *; nlinarith), min_le_left _ _⟩
  · exact ⟨by nlinarith, by nlinarith, by nlinarith, by nlinarith, by nlinarith, by nlinarith⟩

/-- C6: `applyEnhancedDithering` is deterministic, never produces an
out-of-range channel for an in-range input buffer, processes pixel `i` at
Bayer coordinates `(i mod width, i / width)`, and per pixel: luma above the
threshold gives the 70%/20%/10%-brightness tint clamped at 255, luma at or
below gives darkening to 15%. -/
theorem applyEnhancedDithering_spec :
    (∀ (width : ℕ) (data : List Rgb) (colors : ColorPalette),
      applyEnhancedDithering width data colors = applyEnhancedDithering width data colors) ∧
    (∀ (width : ℕ) (data : List Rgb) (colors : ColorPalette),
      (∀ p ∈ data, p.InRange) →
      ∀ q ∈ applyEnhancedDithering width data colors, q.InRange) ∧
    (∀ (width : ℕ) (data : List Rgb) (colors : ColorPalette) (i : ℕ)
      (hi : i < data.length) (hi' : i < (applyEnhancedDithering width data colors).length),
      (applyEnhancedDithering width data colors).get ⟨i, hi'⟩ =
        ditherPixel (hexToRgb colors.secondary) (hexToRgb colors.accent)
          (i % width) (i / width) (data.get ⟨i, hi⟩)) ∧
    (∀ (tint accent : Rgb) (x y : ℕ) (p : Rgb),
      luma p > bayerThreshold x y →
      ditherPixel tint accent x y p =
        ⟨min 255 (p.r * 0.7 + tint.r * 0.2 + accent.r * 0.1 * (luma p / 255)),
          min 255 (p.g * 0.7 + tint.g * 0.2 + accent.g * 0.1 * (luma p / 255)),
          min 255 (p.b * 0.7 + tint.b * 0.2 + accent.b * 0.1 * (luma p / 255))⟩) ∧
    (∀ (tint accent : Rgb) (x y : ℕ) (p : Rgb),
      ¬ luma p > bayerThreshold x y →
      ditherPixel tint accent x y p = ⟨p.r * 0.15, p.g * 0.15, p.b * 0.15⟩) := by
  refine ⟨fun _ _ _ => rfl, ?_, ?_, ?_, ?_⟩
  · intro width data colors hdata q hq
    obtain ⟨i, hi, rfl⟩ := mem_mapIdx _ _ _ hq
    exact ditherPixel_inRange _ _ _ _ _ (hexToRgb_inRange _) (hexToRgb_inRange _)
      (hdata _ (List.get_mem _ _ _))
  · intro width data colors i hi hi'
    exact List.get_mapIdx _ _ _ _
  · intro tint accent x y p hgray
    unfold ditherPixel
    rw [if_pos hgray]
  · intro tint accent x y p hgray
    unfold ditherPixel
    rw [if_neg hgray]

/-- Witness for C6: a two-pixel buffer of in-range pixels dithered with a
concrete palette stays in range, and pixel 0 is processed at Bayer
coordinates `(0, 0)`. -/
theorem applyEnhancedDithering_spec_witness :
    (∀ p ∈ [(⟨255, 255, 255⟩ : Rgb), ⟨10, 20, 30⟩], p.InRange) ∧
    (∀ q ∈ applyEnhancedDithering 2 [(⟨255, 255, 255⟩ : Rgb), ⟨10, 20, 30⟩]
        ⟨"#010203", "#0A0B0C", "#FFFFFF"⟩, q.InRange) ∧
    (applyEnhancedDithering 2 [(⟨255, 255, 255⟩ : Rgb), ⟨10, 20, 30⟩]
        ⟨"#010203", "#0A0B0C", "#FFFFFF"⟩).get ⟨0, by simp [applyEnhancedDithering]⟩ =
      ditherPixel (hexToRgb "#0A0B0C") (hexToRgb "#FFFFFF") (0 % 2) (0 / 2)
        (([(⟨255, 255, 255⟩ : Rgb), ⟨10, 20, 30⟩]).get ⟨0, by norm_num⟩) := by
  have hdata : ∀ p ∈ [(⟨255, 255, 255⟩ : Rgb), ⟨10, 20, 30⟩], p.InRange := by
    intro p hp
    simp only [List.mem_cons, List.not_mem_nil, or_false] at hp
    rcases hp with rfl | rfl
    · exact ⟨by norm_num, by norm_num, by norm_num, by norm_num, by norm_num, by norm_num⟩
    · exact ⟨by norm_num, by norm_num, by norm_num, by norm_num, by norm_num, by norm_num⟩
  refine ⟨hdata, ?_, ?_⟩
  · exact applyEnhancedDithering_spec.2.1 2 _ _ hdata
  · exact applyEnhancedDithering_spec.2.2.1 2 _ _ 0 (by norm_num) _

/-! ## C9 — the particle-pool size after the adjustment step -/

/-- The adjustment loops leave the pool at exactly the target size. -/
lemma adjustPool_length (particles : List Particle) (target : ℕ) (spawn : ℕ → Particle) :
    (adjustPool particles target spawn).length = target := by
  unfold adjustPool
  split_ifs with h
  · simp only [List.length_append, List.length_map, List.length_range]
    omega
  · simp only [List.length_take]
    omega

/-- Counterexample to C9 as stated: for the variant of the spec's
`("swirl", "blackhole")` example pair, `90 × densityMultiplier = 1296/17` is
not an integer, so the (integer) pool length cannot equal
`max(40, 90 × densityMultiplier)` — the code floors the product first. -/
theorem renderEntity_poolSize_counterexample :
    ((adjustPool [] (targetParticleCount (getStyleVariant "swirl" "blackhole"))
        fun _ => someParticle).length : ℚ) ≠
      max 40 (90 * (getStyleVariant "swirl" "blackhole").densityMultiplier) := by
  have hdm : (getStyleVariant "swirl" "blackhole").densityMultiplier = 72 / 85 := by
    have hjs : jsShrAnd (hashString (fallbackLabel "swirl" "blackhole")).natAbs 10 0xff = 15 := by
      decide
    show (0.7 : ℚ) + takeBits (hashString (fallbackLabel "swirl" "blackhole")).natAbs 10 * 2.5 =
      72 / 85
    rw [takeBits, hjs]
    norm_num
  have hfloor : ⌊(90 : ℚ) * (72 / 85)⌋ = 76 := by
    rw [show (90 : ℚ) * (72 / 85) = 1296 / 17 by norm_num, Int.floor_eq_iff]
    norm_num
  have htarget : targetParticleCount (getStyleVariant "swirl" "blackhole") = 76 := by
    rw [targetParticleCount, hdm, hfloor]
    decide
  rw [adjustPool_length, htarget, hdm,
    show (90 : ℚ) * (72 / 85) = 1296 / 17 by norm_num,
    max_eq_right (by norm_num : (40 : ℚ) ≤ 1296 / 17)]
  norm_num

/-- C9 (amended): after the pool-adjustment step at the top of
`renderEntity` — growing by appending newly spawned particles, shrinking by
discarding from the end — the pool length equals
`max(40, ⌊90 × densityMultiplier⌋)` for the active variant. -/
theorem renderEntity_poolSize (particles : List Particle) (variant : StyleVariant)
    (spawn : ℕ → Particle) :
    (adjustPool particles (targetParticleCount variant) spawn).length =
      max 40 (⌊(90 : ℚ) * variant.densityMultiplier⌋.toNat) :=
  adjustPool_length particles (targetParticleCount variant) spawn

/-! ## C10 — the particle update invariant -/

/-- C10: for every derivable variant, positive canvas, palette, `Math.sin`
stand-in and random draws in `[0, 1)`: if every incoming particle satisfies
`life ≤ maxLife` with `maxLife > 0`, then after `updateParticles` every
particle satisfies `0 < life ≤ maxLife` and sits inside the canvas; and any
particle that expired or left the bounds during the step has been respawned
in place — inside the canvas, with life restored to `maxLife`, a fresh
velocity from the draws, and a color from the palette. -/
theorem updateParticles_respawn_invariant :
    (∀ (styleLabel entityType : String) (variant : StyleVariant),
      variant = getStyleVariant styleLabel entityType →
      ∀ (width height : ℚ) (colors : ColorPalette) (sinv : ℚ → ℚ) (rnd : ℕ → ℕ → ℚ)
        (particles : List Particle),
      0 < width → 0 < height →
      (∀ i j, 0 ≤ rnd i j ∧ rnd i j < 1) →
      (∀ p ∈ particles, p.life ≤ p.maxLife ∧ 0 < p.maxLife) →
      ∀ q ∈ updateParticles particles width height colors variant sinv rnd,
        (0 < q.life ∧ q.life ≤ q.maxLife) ∧
        (0 ≤ q.x ∧ q.x ≤ width) ∧ (0 ≤ q.y ∧ q.y ≤ height)) ∧
    (∀ (styleLabel entityType : String) (variant : StyleVariant),
      variant = getStyleVariant styleLabel entityType →
      ∀ (width height : ℚ) (colors : ColorPalette) (sinv : ℚ → ℚ) (rnd : ℕ → ℚ)
        (p : Particle),
      (p.life - (0.4 + variant.intensity * 0.2) ≤ 0 ∨
        p.x + p.vx * (0.4 * variant.speedMultiplier) < 0 ∨
        p.x + p.vx * (0.4 * variant.speedMultiplier) > width ∨
        p.y + p.vy * (0.4 * variant.speedMultiplier) < 0 ∨
        p.y + p.vy * (0.4 * variant.speedMultiplier) > height) →
      (updateParticle width height colors variant sinv rnd p).life = p.maxLife ∧
      (updateParticle width height colors variant sinv rnd p).x = rnd 0 * width ∧
      (updateParticle width height colors variant sinv rnd p).y = rnd 1 * height ∧
      (updateParticle width height colors variant sinv rnd p).vx =
        (rnd 2 - 0.5) * variant.speedMultiplier ∧
      (updateParticle width height colors variant sinv rnd p).vy =
        (rnd 3 - 0.5) * variant.speedMultiplier ∧
      (updateParticle width height colors variant sinv rnd p).color ∈
        [colors.primary, colors.secondary, colors.accent]) := by
  constructor
  · intro styleLabel entityType variant hv width height colors sinv rnd particles
      hw hh hrnd hps q hq
    obtain ⟨i, hi, rfl⟩ := mem_mapIdx _ _ _ hq
    obtain ⟨hlife, hmax⟩ := hps _ (List.get_mem particles i hi)
    have hint : (0.5 : ℚ) ≤ variant.intensity := hv ▸ getStyleVariant_intensity_ge _ _
    obtain ⟨hr0, hr1⟩ := hrnd i 0
    obtain ⟨hs0, hs1⟩ := hrnd i 1
    simp only [updateParticle]
    split_ifs with hcond
    · refine ⟨⟨hmax, le_refl _⟩, ⟨by positivity, ?_⟩, ⟨by positivity, ?_⟩⟩
      · calc rnd i 0 * width ≤ 1 * width := by nlinarith
          _ = width := one_mul width
      · calc rnd i 1 * height ≤ 1 * height := by nlinarith
          _ = height := one_mul height
    · push_neg at hcond
      obtain ⟨h1, h2, h3, h4, h5⟩ := hcond
      exact ⟨⟨h1, by linarith⟩, ⟨h2, h3⟩, ⟨h4, h5⟩⟩
  · intro styleLabel entityType variant hv width height colors sinv rnd p hcond
    simp only [updateParticle]
    split_ifs
    refine ⟨rfl, rfl, rfl, rfl, rfl, ?_⟩
    exact getD_mod_mem _ _ _ (by simp)

/-- Witness for C10: a single expired particle on a 100×100 canvas with the
zero draw oracle is respawned in range under the spec's example variant. -/
theorem updateParticles_respawn_invariant_witness :
    ((0 : ℚ) < 100) ∧
    (∀ i j : ℕ, 0 ≤ (fun (_ _ : ℕ) => (0 : ℚ)) i j ∧ (fun (_ _ : ℕ) => (0 : ℚ)) i j < 1) ∧
    (∀ p ∈ [someParticle], p.life ≤ p.maxLife ∧ 0 < p.maxLife) ∧
    (∀ q ∈ updateParticles [someParticle] 100 100 ⟨"#101010", "#202020", "#303030"⟩
        (getStyleVariant "swirl" "blackhole") (fun _ => 0) (fun _ _ => 0),
      (0 < q.life ∧ q.life ≤ q.maxLife) ∧ (0 ≤ q.x ∧ q.x ≤ 100) ∧ (0 ≤ q.y ∧ q.y ≤ 100)) := by
  have hps : ∀ p ∈ [someParticle], p.life ≤ p.maxLife ∧ 0 < p.maxLife := by
    intro p hp
    simp only [List.mem_singleton] at hp
    subst hp
    exact ⟨by norm_num [someParticle], by norm_num [someParticle]⟩
  refine ⟨by norm_num, fun i j => ⟨le_refl 0, by norm_num⟩, hps, ?_⟩
  exact updateParticles_respawn_invariant.1 "swirl" "blackhole" _ rfl 100 100
    ⟨"#101010", "#202020", "#303030"⟩ (fun _ => 0) (fun _ _ => 0) [someParticle]
    (by norm_num) (by norm_num) (fun i j => ⟨le_refl 0, by norm_num⟩) hps
